import Mathlib

/-!
Verification of the `witffi` code generator against its natural-language
specification.

The development shallowly embeds the parts of the repository that the
claims touch:

* `witffi-types/src/lib.rs` — the shared `repr(C)` FFI value types
  (`FfiByteSlice`, `FfiByteBuffer`, `option_to_ptr`, `free_ptr`).  Raw heap
  pointers are modelled by the `Ptr` type below: a pointer is either null
  or valid and carrying its pointee (a `Box::into_raw` allocation is
  `Ptr.valid`), and byte pointers carry the block of bytes they point at.
  Deallocation is modelled by returning the deallocated value, `none`
  when nothing is freed.
* `witffi-core/src/names.rs` — identifier casing and keyword escaping
  (the `heck` casing routines are embedded for ASCII identifiers).
* `witffi-core/src/lib.rs` — `load_wit`'s world-count logic, with the
  external `wit-parser` resolution step abstracted as an input.
* `witffi-swift/src/generate.rs` — the Swift generator placeholder.
* `examples/eip681-ffi/src/lib.rs` — the conversions from `eip681`
  domain values to the generated wire types.
-/

namespace Witffi

/-- Model of a raw heap pointer: either null, or valid and carrying its
pointee.  `Box::into_raw (Box::new v)` is modelled by `Ptr.valid v`,
`ptr::null_mut()` by `Ptr.null`. -/
inductive Ptr (α : Type) where
  | null : Ptr α
  | valid : α → Ptr α
deriving DecidableEq

/-- `is_null` on a modelled pointer. -/
def Ptr.isNull : Ptr α → Bool
  | .null => true
  | .valid _ => false

/-- `witffi_types::FfiByteSlice`: a borrowed byte slice (const pointer plus
length).  The pointer is modelled by the block of bytes it points at. -/
structure FfiByteSlice where
  ptr : Ptr (List Nat)
  len : Nat
deriving DecidableEq

/-- `FfiByteSlice::as_bytes`: if the pointer is null or the length is zero,
return the empty slice without reading through the pointer; otherwise read
`len` bytes starting at `ptr` (`slice::from_raw_parts(self.ptr, self.len)`). -/
def FfiByteSlice.as_bytes (s : FfiByteSlice) : List Nat :=
  if s.ptr.isNull || s.len == 0 then []
  else
    match s.ptr with
    | .null => []
    | .valid d => d.take s.len

/-- `witffi_types::FfiByteBuffer`: an owned byte buffer (mutable pointer plus
length), callee-allocated, freed by the caller. -/
structure FfiByteBuffer where
  ptr : Ptr (List Nat)
  len : Nat
deriving DecidableEq

/-- `FfiByteBuffer::empty`: null pointer, zero length. -/
def FfiByteBuffer.empty : FfiByteBuffer := { ptr := .null, len := 0 }

/-- `FfiByteBuffer::from_vec`: the vector's allocation is transferred to the
buffer (`ptr = v.as_mut_ptr()`, which is non-null even for an empty vector,
`len = v.len()`). -/
def FfiByteBuffer.from_vec (v : List Nat) : FfiByteBuffer :=
  { ptr := .valid v, len := v.length }

/-- UTF-8 encoding of a single character, as in Rust `String` storage. -/
def utf8Bytes (c : Char) : List Nat :=
  let n := c.toNat
  if n < 0x80 then [n]
  else if n < 0x800 then [0xC0 + n / 64, 0x80 + n % 64]
  else if n < 0x10000 then
    [0xE0 + n / 4096, 0x80 + n / 64 % 64, 0x80 + n % 64]
  else
    [0xF0 + n / 262144, 0x80 + n / 4096 % 64, 0x80 + n / 64 % 64, 0x80 + n % 64]

/-- The UTF-8 bytes of a string (`String::into_bytes`). -/
def strBytes (s : String) : List Nat :=
  (s.data.map utf8Bytes).flatten

/-- `FfiByteBuffer::from_string`: `Self::from_vec(s.into_bytes())`. -/
def FfiByteBuffer.from_string (s : String) : FfiByteBuffer :=
  FfiByteBuffer.from_vec (strBytes s)

/-- Reading a buffer back: the first `len` bytes at `ptr`
(`slice::from_raw_parts(buf.ptr, buf.len)`), empty for a null pointer. -/
def FfiByteBuffer.readBack (b : FfiByteBuffer) : List Nat :=
  match b.ptr with
  | .null => []
  | .valid d => d.take b.len

/-- `FfiByteBuffer::free`: deallocates the block behind `ptr` only when the
pointer is non-null and `len > 0`; returns the deallocated block, `none`
when nothing is freed. -/
def FfiByteBuffer.free (b : FfiByteBuffer) : Option (List Nat) :=
  match b.ptr with
  | .null => none
  | .valid d => if b.len > 0 then some d else none

/-- `witffi_types::option_to_ptr`: `Some(v)` is boxed and returned as a raw
pointer, `None` returns null. -/
def option_to_ptr : Option α → Ptr α
  | some v => .valid v
  | none => .null

/-- `witffi_types::free_ptr`: frees the boxed value behind a non-null
pointer; a null pointer is a no-op.  Returns the deallocated value, `none`
when nothing is freed. -/
def free_ptr (p : Ptr α) : Option α :=
  match p with
  | .null => none
  | .valid v => some v

/-- C6: `option_to_ptr(Some(x))` is a non-null pointer whose pointee is `x`,
`option_to_ptr(None)` is the null pointer, and the result is null exactly
when the option is none. -/
theorem option_to_ptr_none_iff_null (α : Type) (x : α) (o : Option α) :
    option_to_ptr (some x) = Ptr.valid x ∧
    (option_to_ptr (some x)).isNull = false ∧
    option_to_ptr (none : Option α) = Ptr.null ∧
    (option_to_ptr o).isNull = o.isNone := by
  refine ⟨rfl, rfl, rfl, ?_⟩
  cases o <;> rfl

/-- C7: `FfiByteBuffer::from_vec` (resp. `from_string`) yields a buffer whose
`len` is the vector's length (the string's UTF-8 byte length) and whose
first `len` bytes are exactly the vector's bytes (the string's UTF-8
bytes); reading the buffer back is the identity round-trip. -/
theorem from_vec_from_string_roundtrip (v : List Nat) (s : String) :
    (FfiByteBuffer.from_vec v).len = v.length ∧
    (FfiByteBuffer.from_vec v).readBack = v ∧
    (FfiByteBuffer.from_string s).len = (strBytes s).length ∧
    (FfiByteBuffer.from_string s).readBack = strBytes s := by
  refine ⟨rfl, ?_, rfl, ?_⟩ <;>
    simp [FfiByteBuffer.from_vec, FfiByteBuffer.from_string, FfiByteBuffer.readBack]

/-- C8: `FfiByteSlice::as_bytes` returns the empty slice for a null pointer
(whatever the length) and for a zero length (whatever the pointer, null or
valid), never reading through a null pointer. -/
theorem as_bytes_tolerates_null_and_empty (n : Nat) (d : List Nat) :
    FfiByteSlice.as_bytes { ptr := Ptr.null, len := n } = [] ∧
    FfiByteSlice.as_bytes { ptr := Ptr.valid d, len := 0 } = [] ∧
    FfiByteSlice.as_bytes { ptr := Ptr.null, len := 0 } = [] := by
  refine ⟨?_, ?_, ?_⟩ <;> simp [FfiByteSlice.as_bytes, Ptr.isNull]

/-- C10: freeing a null or length-zero buffer deallocates nothing (so freeing
`FfiByteBuffer::empty()` never touches memory), and `free_ptr` on a null
pointer deallocates nothing. -/
theorem free_null_or_empty_noop (α : Type) (n : Nat) (d : List Nat) :
    FfiByteBuffer.free { ptr := Ptr.null, len := n } = none ∧
    FfiByteBuffer.free { ptr := Ptr.valid d, len := 0 } = none ∧
    FfiByteBuffer.empty.free = none ∧
    free_ptr (Ptr.null : Ptr α) = none := by
  refine ⟨rfl, ?_, rfl, rfl⟩
  simp [FfiByteBuffer.free]

/-!
## `witffi-core/src/names.rs`

The casing routines come from the `heck` crate; they are embedded here for
ASCII identifiers (WIT identifiers are ASCII): an identifier is split into
words at non-alphanumeric separators and at case boundaries, and the words
are recombined in the target convention.
-/

/-- Word splitting at case boundaries inside one alphanumeric run, as `heck`
does: a new word starts at an uppercase letter preceded by a lowercase
letter or digit, and at the last uppercase letter of an uppercase run that
is followed by a lowercase letter. -/
def caseSplit (acc : List Char) : List Char → List (List Char)
  | [] => [acc.reverse]
  | c :: rest =>
    match acc with
    | [] => caseSplit [c] rest
    | p :: _ =>
      if (p.isLower || p.isDigit) && c.isUpper then
        acc.reverse :: caseSplit [c] rest
      else if p.isUpper && c.isUpper &&
          (match rest with | n :: _ => n.isLower | [] => false) then
        acc.reverse :: caseSplit [c] rest
      else
        caseSplit (c :: acc) rest

/-- Split an identifier into its words: non-alphanumeric characters separate
runs, and each run is further split at case boundaries. -/
def splitWords (s : String) : List (List Char) :=
  let runs := (s.data.splitOnP (fun c => !c.isAlphanum)).filter (fun r => r ≠ [])
  (runs.map (fun r => (caseSplit [] r).filter (fun w => w ≠ []))).flatten

/-- Capitalise one word: first character uppercased, the rest lowercased. -/
def capWord : List Char → List Char
  | [] => []
  | c :: cs => c.toUpper :: cs.map Char.toLower

/-- `heck::ToSnakeCase`: lowercased words joined with underscores. -/
def toSnakeCase (s : String) : String :=
  String.intercalate "_" ((splitWords s).map (fun w => String.mk (w.map Char.toLower)))

/-- `heck::ToPascalCase`: capitalised words concatenated. -/
def toPascalCase (s : String) : String :=
  String.join ((splitWords s).map (fun w => String.mk (capWord w)))

/-- `heck::ToLowerCamelCase`: first word lowercased, later words capitalised. -/
def toLowerCamelCase (s : String) : String :=
  match splitWords s with
  | [] => ""
  | w :: ws => String.mk (w.map Char.toLower) ++ String.join (ws.map (fun v => String.mk (capWord v)))

/-- The Rust reserved words escaped by `escape_rust_keyword`. -/
def rustKeywords : List String :=
  ["as", "break", "const", "continue", "crate", "else", "enum", "extern", "false",
   "fn", "for", "if", "impl", "in", "let", "loop", "match", "mod", "move",
   "mut", "pub", "ref", "return", "self", "Self", "static", "struct", "super",
   "trait", "true", "type", "unsafe", "use", "where", "while", "async", "await",
   "dyn", "abstract", "become", "box", "do", "final", "macro", "override",
   "priv", "typeof", "unsized", "virtual", "yield", "try"]

/-- `names::escape_rust_keyword`: append `_` to a Rust reserved word. -/
def escape_rust_keyword (name : String) : String :=
  if rustKeywords.contains name then name ++ "_" else name

/-- The Go reserved keywords and predeclared identifiers escaped by
`escape_go_keyword`. -/
def goKeywords : List String :=
  ["break", "case", "chan", "const", "continue", "default", "defer", "else",
   "fallthrough", "for", "func", "go", "goto", "if", "import", "interface",
   "map", "package", "range", "return", "select", "struct", "switch", "type",
   "var",
   "len", "cap", "make", "new", "append", "copy", "delete", "close", "panic",
   "recover", "print", "println", "error", "string", "bool", "int", "uint",
   "byte", "rune", "float32", "float64", "complex64", "complex128", "true",
   "false", "nil", "iota"]

/-- `names::escape_go_keyword`: append `_` to a Go reserved keyword or
predeclared identifier. -/
def escape_go_keyword (name : String) : String :=
  if goKeywords.contains name then name ++ "_" else name

/-- The Kotlin hard keywords and soft keywords escaped by
`escape_kotlin_keyword`. -/
def kotlinKeywords : List String :=
  ["as", "break", "class", "continue", "do", "else", "false", "for", "fun", "if",
   "in", "interface", "is", "null", "object", "package", "return", "super",
   "this", "throw", "true", "try", "typealias", "typeof", "val", "var", "when",
   "while",
   "by", "catch", "companion", "constructor", "data", "dynamic", "finally",
   "import", "init", "inner", "it", "out", "sealed", "where"]

/-- `names::escape_kotlin_keyword`: wrap a Kotlin keyword in backticks. -/
def escape_kotlin_keyword (name : String) : String :=
  if kotlinKeywords.contains name then "`" ++ name ++ "`" else name

/-- The Swift reserved words escaped by `escape_swift_keyword`. -/
def swiftKeywords : List String :=
  ["associatedtype", "class", "deinit", "enum", "extension", "fileprivate", "func",
   "import", "init", "inout", "internal", "let", "open", "operator", "private",
   "protocol", "public", "rethrows", "static", "struct", "subscript", "super",
   "typealias", "var", "break", "case", "continue", "default", "defer", "do",
   "else", "fallthrough", "for", "guard", "if", "in", "repeat", "return",
   "switch", "where", "while", "as", "catch", "false", "is", "nil", "self",
   "Self", "throw", "throws", "true", "try", "async", "await"]

/-- `names::escape_swift_keyword`: wrap a Swift reserved word in backticks. -/
def escape_swift_keyword (name : String) : String :=
  if swiftKeywords.contains name then "`" ++ name ++ "`" else name

/-- `names::to_rust_type`: PascalCase, no escaping. -/
def to_rust_type (name : String) : String := toPascalCase name

/-- `names::to_rust_ident`: snake_case, then Rust keyword escaping. -/
def to_rust_ident (name : String) : String :=
  escape_rust_keyword (toSnakeCase name)

/-- `names::to_swift_type`: PascalCase, no escaping. -/
def to_swift_type (name : String) : String := toPascalCase name

/-- `names::to_swift_ident`: camelCase, then Swift keyword escaping. -/
def to_swift_ident (name : String) : String :=
  escape_swift_keyword (toLowerCamelCase name)

/-- `names::to_kotlin_type`: PascalCase, no escaping. -/
def to_kotlin_type (name : String) : String := toPascalCase name

/-- `names::to_kotlin_ident`: camelCase, then Kotlin keyword escaping. -/
def to_kotlin_ident (name : String) : String :=
  escape_kotlin_keyword (toLowerCamelCase name)

/-- `names::to_go_type`: PascalCase, then Go keyword escaping. -/
def to_go_type (name : String) : String :=
  escape_go_keyword (toPascalCase name)

/-- `names::to_go_ident`: camelCase, then Go keyword escaping. -/
def to_go_ident (name : String) : String :=
  escape_go_keyword (toLowerCamelCase name)

/-- C3: value-identifier mapping escapes a mapped form that is in the
target's reserved-word list with a trailing underscore in Rust and Go, and
with backticks in Swift and Kotlin, and passes every other mapped form
through unchanged; in particular `type` maps to Rust `type_`, `class` maps
to Swift backtick-quoted `class`, and `when` maps to Kotlin backtick-quoted
`when`. -/
theorem keyword_escaping_per_target (name : String) :
    to_rust_ident name =
      (if rustKeywords.contains (toSnakeCase name) then toSnakeCase name ++ "_"
       else toSnakeCase name) ∧
    to_go_ident name =
      (if goKeywords.contains (toLowerCamelCase name) then toLowerCamelCase name ++ "_"
       else toLowerCamelCase name) ∧
    to_swift_ident name =
      (if swiftKeywords.contains (toLowerCamelCase name) then
        "`" ++ toLowerCamelCase name ++ "`"
       else toLowerCamelCase name) ∧
    to_kotlin_ident name =
      (if kotlinKeywords.contains (toLowerCamelCase name) then
        "`" ++ toLowerCamelCase name ++ "`"
       else toLowerCamelCase name) ∧
    to_rust_ident "type" = "type_" ∧
    to_swift_ident "class" = "`class`" ∧
    to_kotlin_ident "when" = "`when`" ∧
    to_rust_ident "chain-id" = "chain_id" ∧
    to_swift_ident "chain-id" = "chainId" := by
  refine ⟨rfl, rfl, rfl, rfl, ?_, ?_, ?_, ?_, ?_⟩ <;> decide

/-- C9: the type-name mappers for Rust, Swift and Kotlin apply PascalCase
only and never keyword escaping: a WIT type named `self` maps to the
unescaped reserved word `Self` in all three (had escaping been applied,
Rust would have produced `Self_`). -/
theorem type_names_never_escaped (name : String) :
    to_rust_type name = toPascalCase name ∧
    to_swift_type name = toPascalCase name ∧
    to_kotlin_type name = toPascalCase name ∧
    to_rust_type "self" = "Self" ∧
    rustKeywords.contains "Self" = true ∧
    escape_rust_keyword "Self" = "Self_" ∧
    to_swift_type "self" = "Self" ∧
    swiftKeywords.contains "Self" = true ∧
    to_kotlin_type "self" = "Self" := by
  refine ⟨rfl, rfl, rfl, ?_, ?_, ?_, ?_, ?_, ?_⟩ <;> decide

/-!
## `witffi-core/src/lib.rs`: `load_wit`

The external `wit-parser` resolution steps (`push_dir`, `parse_file`,
`push_group`) are abstracted as the input: a `WitPath` records, for a
directory input, the outcome of `push_dir` (an error or the resolved
worlds), and for a file input, the outcome of `parse_file` and then of
`push_group` (the package's worlds).  World ids are modelled as `Nat`. -/
inductive WitPath where
  | dir (pushDir : Except String (List Nat))
  | file (parseResult : Except String (Except String (List Nat)))

/-- The error type of `witffi-core` (`witffi_core::Error`). -/
inductive Error where
  | loadDir (msg : String)
  | parseFile (msg : String)
  | resolvePackage (msg : String)
  | worldCount (count : Nat)
deriving DecidableEq

/-- `witffi_core::load_wit`: propagate load/parse/resolve errors; then, in
both the directory and the file branch, require exactly one world
(`ensure!(worlds.len() == 1, WorldCountSnafu { count: worlds.len() })`) and
return `worlds[0]`. -/
def load_wit : WitPath → Except Error Nat
  | .dir (.error e) => .error (.loadDir e)
  | .dir (.ok worlds) =>
    if worlds.length = 1 then .ok (worlds.headD 0)
    else .error (.worldCount worlds.length)
  | .file (.error e) => .error (.parseFile e)
  | .file (.ok (.error e)) => .error (.resolvePackage e)
  | .file (.ok (.ok worlds)) =>
    if worlds.length = 1 then .ok (worlds.headD 0)
    else .error (.worldCount worlds.length)

/-- The worlds an input resolves to, when resolution itself succeeds. -/
def resolvesTo : WitPath → Option (List Nat)
  | .dir (.ok ws) => some ws
  | .file (.ok (.ok ws)) => some ws
  | _ => none

/-- C2: whenever the input resolves to a list of worlds, `load_wit` returns
`Ok` with the single world's id when there is exactly one, and the
`WorldCount` error whose count is the number of worlds found otherwise (in
particular for zero worlds and for more than one). -/
theorem load_wit_world_count (p : WitPath) (ws : List Nat)
    (h : resolvesTo p = some ws) :
    load_wit p =
      if ws.length = 1 then Except.ok (ws.headD 0)
      else Except.error (Error.worldCount ws.length) := by
  cases p with
  | dir r =>
    cases r with
    | error e => simp [resolvesTo] at h
    | ok ws0 =>
      simp only [resolvesTo, Option.some_inj] at h
      subst h
      rfl
  | file r =>
    cases r with
    | error e => simp [resolvesTo] at h
    | ok r0 =>
      cases r0 with
      | error e => simp [resolvesTo] at h
      | ok ws0 =>
        simp only [resolvesTo, Option.some_inj] at h
        subst h
        rfl

/-- Witness for C2: a directory that resolves to exactly one world yields
that world; a file that resolves to zero worlds yields `WorldCount 0`; a
directory resolving to two worlds yields `WorldCount 2`. -/
theorem load_wit_world_count_witness :
    load_wit (WitPath.dir (Except.ok [5])) = Except.ok 5 ∧
    load_wit (WitPath.file (Except.ok (Except.ok []))) =
      Except.error (Error.worldCount 0) ∧
    load_wit (WitPath.dir (Except.ok [5, 9])) =
      Except.error (Error.worldCount 2) := by
  refine ⟨?_, ?_, ?_⟩
  · simpa using load_wit_world_count (WitPath.dir (Except.ok [5])) [5] rfl
  · simpa using load_wit_world_count (WitPath.file (Except.ok (Except.ok []))) [] rfl
  · simpa using load_wit_world_count (WitPath.dir (Except.ok [5, 9])) [5, 9] rfl

/-!
## `witffi-swift/src/generate.rs`

The `Resolve` held by the generator is external state the placeholder never
inspects; it is abstracted as a type parameter. -/

/-- `witffi_swift::generate::SwiftConfig` (the generation present in
`src/crates/witffi-swift/src/generate.rs`). -/
structure SwiftConfig where
  module_name : String
deriving DecidableEq

/-- `SwiftConfig::default()`. -/
def SwiftConfig.defaultConfig : SwiftConfig := { module_name := "WitFFI" }

/-- `witffi_swift::SwiftGenerator`: a resolved WIT world plus configuration. -/
structure SwiftGenerator (R : Type) where
  resolve : R
  world_id : Nat
  config : SwiftConfig

/-- `SwiftGenerator::new`. -/
def SwiftGenerator.new (resolve : R) (world_id : Nat) (config : SwiftConfig) :
    SwiftGenerator R :=
  { resolve := resolve, world_id := world_id, config := config }

/-- `SwiftGenerator::generate`: the body is
`bail!("Swift generator not yet implemented")`. -/
def SwiftGenerator.generate (_g : SwiftGenerator R) : Except String String :=
  .error "Swift generator not yet implemented"

/-- C1 (evaluation at the failing input): `SwiftGenerator::generate` returns
the error `"Swift generator not yet implemented"` for every resolved world,
so it never returns Swift source and never succeeds — contradicting the
crate's own documentation, its callers, and the specification. -/
theorem swift_generate_always_fails (R : Type) (g : SwiftGenerator R) :
    SwiftGenerator.generate g =
      Except.error "Swift generator not yet implemented" ∧
    (SwiftGenerator.generate
      (SwiftGenerator.new () 0 SwiftConfig.defaultConfig)).isOk = false :=
  ⟨rfl, rfl⟩

/-!
## `examples/eip681-ffi/src/lib.rs`

The example bridges the external `eip681` crate to the wire types generated
into `ffi.rs` by `witffi-rust` (whose generator module is not part of this
snapshot).  The external domain types are modelled through the accessor
surface the example uses; the generated wire structs are modelled with the
fields the example constructs, following the spec's wire model. -/

/-- The external `eip681::NativeRequest`, modelled through its accessors
(`schema_prefix`, `chain_id`, `recipient_address`, `value_atomic`,
`gas_limit`, `gas_price`) and its `Display` output. -/
structure NativeRequest where
  schema_prefix : String
  chain_id : Option Nat
  recipient_address : String
  value_atomic : Option Nat
  gas_limit : Option Nat
  gas_price : Option Nat
  display : String
deriving DecidableEq

/-- The external `eip681::Erc20Request`, modelled through its accessors. -/
structure Erc20Request where
  chain_id : Option Nat
  token_contract_address : String
  recipient_address : String
  value_atomic : Nat
  display : String
deriving DecidableEq

/-- The external `eip681::TransactionRequest` sum type. -/
inductive TransactionRequest where
  | NativeRequest (r : NativeRequest)
  | Erc20Request (r : Erc20Request)
  | Unrecognised (raw : String)
deriving DecidableEq

/-- The 32-byte big-endian encoding of a `U256` value
(`U256::to_big_endian` into a 32-byte vector). -/
def toBigEndian32 (v : Nat) : List Nat :=
  (List.range 32).map (fun i => v / 256 ^ (31 - i) % 256)

/-- Decode big-endian bytes back to the encoded number. -/
def beToNat (bs : List Nat) : Nat :=
  bs.foldl (fun acc b => acc * 256 + b) 0

/-- `u256_to_ffi`: a `U256` as an `FfiByteBuffer` of 32 big-endian bytes. -/
def u256_to_ffi (v : Nat) : FfiByteBuffer :=
  FfiByteBuffer.from_vec (toBigEndian32 v)

/-- Wire struct `FfiNativeRequest` from the generated `ffi.rs`. -/
structure FfiNativeRequest where
  schema_prefix : FfiByteBuffer
  chain_id : Ptr Nat
  recipient_address : FfiByteBuffer
  value_atomic : Ptr FfiByteBuffer
  gas_limit : Ptr FfiByteBuffer
  gas_price : Ptr FfiByteBuffer
  display : FfiByteBuffer
deriving DecidableEq

/-- Wire struct `FfiErc20Request` from the generated `ffi.rs`. -/
structure FfiErc20Request where
  chain_id : Ptr Nat
  token_contract_address : FfiByteBuffer
  recipient_address : FfiByteBuffer
  value_atomic : FfiByteBuffer
  display : FfiByteBuffer
deriving DecidableEq

/-- Wire discriminant `FfiTransactionRequestTag` (declaration order:
`Native`, `Erc20`, `Unrecognised`). -/
inductive FfiTransactionRequestTag where
  | Native
  | Erc20
  | Unrecognised
deriving DecidableEq

/-- Wire payload struct for the `native` case. -/
structure FfiTransactionRequestNativePayload where
  value : FfiNativeRequest
deriving DecidableEq

/-- Wire payload struct for the `erc20` case. -/
structure FfiTransactionRequestErc20Payload where
  value : FfiErc20Request
deriving DecidableEq

/-- Wire payload struct for the `unrecognised` case. -/
structure FfiTransactionRequestUnrecognisedPayload where
  value : FfiByteBuffer
deriving DecidableEq

/-- Wire variant `FfiTransactionRequest`: a tag plus one nullable payload
pointer per case. -/
structure FfiTransactionRequest where
  tag : FfiTransactionRequestTag
  native : Ptr FfiTransactionRequestNativePayload
  erc20 : Ptr FfiTransactionRequestErc20Payload
  unrecognised : Ptr FfiTransactionRequestUnrecognisedPayload
deriving DecidableEq

/-- `native_to_ffi`: convert an `eip681::NativeRequest` into its FFI
representation. -/
def native_to_ffi : NativeRequest → FfiNativeRequest
  | { schema_prefix := sp, chain_id := cid, recipient_address := ra,
      value_atomic := va, gas_limit := gl, gas_price := gp, display := d } =>
    { schema_prefix := FfiByteBuffer.from_string sp,
      chain_id := option_to_ptr cid,
      recipient_address := FfiByteBuffer.from_string ra,
      value_atomic := option_to_ptr (va.map u256_to_ffi),
      gas_limit := option_to_ptr (gl.map u256_to_ffi),
      gas_price := option_to_ptr (gp.map u256_to_ffi),
      display := FfiByteBuffer.from_string d }

/-- `erc20_to_ffi`: convert an `eip681::Erc20Request` into its FFI
representation. -/
def erc20_to_ffi : Erc20Request → FfiErc20Request
  | { chain_id := cid, token_contract_address := tca, recipient_address := ra,
      value_atomic := va, display := d } =>
    { chain_id := option_to_ptr cid,
      token_contract_address := FfiByteBuffer.from_string tca,
      recipient_address := FfiByteBuffer.from_string ra,
      value_atomic := u256_to_ffi va,
      display := FfiByteBuffer.from_string d }

/-- `tx_request_to_ffi`: convert an `eip681::TransactionRequest` into its
FFI representation; the selected case's payload is boxed, the other two
case pointers are null. -/
def tx_request_to_ffi : TransactionRequest → FfiTransactionRequest
  | .NativeRequest native =>
    { tag := .Native,
      native := Ptr.valid { value := native_to_ffi native },
      erc20 := Ptr.null,
      unrecognised := Ptr.null }
  | .Erc20Request erc20 =>
    { tag := .Erc20,
      native := Ptr.null,
      erc20 := Ptr.valid { value := erc20_to_ffi erc20 },
      unrecognised := Ptr.null }
  | .Unrecognised raw =>
    { tag := .Unrecognised,
      native := Ptr.null,
      erc20 := Ptr.null,
      unrecognised := Ptr.valid { value := FfiByteBuffer.from_string raw } }

/-- How many of the three case pointers of a wire variant are non-null. -/
def nonNullCaseCount (f : FfiTransactionRequest) : Nat :=
  (if f.native.isNull then 0 else 1) +
  (if f.erc20.isNull then 0 else 1) +
  (if f.unrecognised.isNull then 0 else 1)

/-- Whether the case pointer selected by the tag is non-null. -/
def tagCaseNonNull (f : FfiTransactionRequest) : Bool :=
  match f.tag with
  | .Native => !f.native.isNull
  | .Erc20 => !f.erc20.isNull
  | .Unrecognised => !f.unrecognised.isNull

/-- C4: for every `eip681` transaction request, the wire variant produced by
`tx_request_to_ffi` has exactly one non-null case pointer among `native`,
`erc20` and `unrecognised`, and it is the one selected by the `tag`
discriminant. -/
theorem tx_request_exactly_one_case (r : TransactionRequest) :
    nonNullCaseCount (tx_request_to_ffi r) = 1 ∧
    tagCaseNonNull (tx_request_to_ffi r) = true := by
  cases r <;>
    simp [tx_request_to_ffi, nonNullCaseCount, tagCaseNonNull, Ptr.isNull]

/-- Modelled from the spec: the external `eip681` crate's
`TransactionRequest::parse` is not part of this repository.  It is modelled
at the specification's end-to-end scenarios (§8): the native-transfer input
parses to the native request with the given fields, the ERC-20 input to the
erc20 request with the given fields, and an unrecognisable input fails with
a parse-error string. -/
def eip681_parse (input : String) : Except String TransactionRequest :=
  if input =
      "ethereum:0xfB6916095ca1df60bB79Ce92cE3Ea74c37c5d359?value=2014000000000000000" then
    .ok (.NativeRequest
      { schema_prefix := "ethereum",
        chain_id := none,
        recipient_address := "0xfB6916095ca1df60bB79Ce92cE3Ea74c37c5d359",
        value_atomic := some 2014000000000000000,
        gas_limit := none,
        gas_price := none,
        display := input })
  else if input =
      "ethereum:0xA0b86991c6218b36c1d19D4a2e9Eb0cE3606eB48/transfer?address=0xfB6916095ca1df60bB79Ce92cE3Ea74c37c5d359&uint256=1000000" then
    .ok (.Erc20Request
      { chain_id := none,
        token_contract_address := "0xA0b86991c6218b36c1d19D4a2e9Eb0cE3606eB48",
        recipient_address := "0xfB6916095ca1df60bB79Ce92cE3Ea74c37c5d359",
        value_atomic := 1000000,
        display := input })
  else
    .error "parse error"

instance {ε α : Type} [DecidableEq ε] [DecidableEq α] : DecidableEq (Except ε α) :=
  fun x y =>
    match x, y with
    | .ok a, .ok b =>
      if h : a = b then isTrue (h ▸ rfl)
      else isFalse (fun he => h (Except.ok.inj he))
    | .error a, .error b =>
      if h : a = b then isTrue (h ▸ rfl)
      else isFalse (fun he => h (Except.error.inj he))
    | .ok _, .error _ => isFalse (fun he => Except.noConfusion he)
    | .error _, .ok _ => isFalse (fun he => Except.noConfusion he)

/-- `Impl::parser_parse`: `eip681::TransactionRequest::parse(input)` mapped
through `tx_request_to_ffi`, errors forwarded as strings. -/
def parser_parse (input : String) : Except String FfiTransactionRequest :=
  (eip681_parse input).map tx_request_to_ffi

/-- The native-transfer scenario input string. -/
def scenario1 : String :=
  "ethereum:0xfB6916095ca1df60bB79Ce92cE3Ea74c37c5d359?value=2014000000000000000"

/-- C5: on the native-transfer input, `parser_parse` returns the ok branch
carrying the native variant case whose `recipient_address` buffer holds the
UTF-8 bytes of the address, whose `chain_id` is null, whose `value_atomic`
is a non-null pointer to the 32-byte big-endian encoding of
2014000000000000000, and whose `gas_limit` and `gas_price` are null. -/
theorem parser_parse_native_transfer :
    ∃ p : FfiTransactionRequestNativePayload,
      parser_parse scenario1 = Except.ok
        { tag := FfiTransactionRequestTag.Native,
          native := Ptr.valid p,
          erc20 := Ptr.null,
          unrecognised := Ptr.null } ∧
      p.value.recipient_address.readBack =
        strBytes "0xfB6916095ca1df60bB79Ce92cE3Ea74c37c5d359" ∧
      p.value.chain_id = Ptr.null ∧
      p.value.value_atomic = Ptr.valid (u256_to_ffi 2014000000000000000) ∧
      (u256_to_ffi 2014000000000000000).len = 32 ∧
      (u256_to_ffi 2014000000000000000).readBack =
        toBigEndian32 2014000000000000000 ∧
      beToNat (toBigEndian32 2014000000000000000) = 2014000000000000000 ∧
      p.value.gas_limit = Ptr.null ∧
      p.value.gas_price = Ptr.null := by
  refine ⟨{ value :=
    { schema_prefix := FfiByteBuffer.from_string "ethereum",
      chain_id := Ptr.null,
      recipient_address :=
        FfiByteBuffer.from_string "0xfB6916095ca1df60bB79Ce92cE3Ea74c37c5d359",
      value_atomic := Ptr.valid (u256_to_ffi 2014000000000000000),
      gas_limit := Ptr.null,
      gas_price := Ptr.null,
      display := FfiByteBuffer.from_string scenario1 } },
    ?_, ?_, ?_, ?_, ?_, ?_, ?_, ?_, ?_⟩ <;> decide

end Witffi
